import Mathlib

/-!
Verification of the agent repository (src/agent.py, src/mashcook_agent.py).

This file shallowly embeds the parts of the code relevant to the emission
pipeline (`pulse_button` / `generate_erc721_yul_contract`), the chat-history
snapshot (`get_chat_history`), and the heartbeat monitor (`spice_sync_pulse`),
and proves or refutes the frozen claims about them.

Python strings are modelled as Lean `String`, with Python operations
(`+`, `len`, `startswith`, slicing, `zfill`) given explicitly as functions
over the underlying code-point list, matching Python code-point semantics.
-/

/-- Python string concatenation `a + b` (code-point lists appended). -/
def py_add (a b : String) : String := String.mk (a.data ++ b.data)

/-- Python `len(s)`: number of code points. -/
def py_len (s : String) : Nat := s.data.length

/-- Python `s.startswith(p)`: `p` is a code-point-wise start of `s`. -/
def py_startswith (s p : String) : Bool := p.data.isPrefixOf s.data

/-- Python `s[n:]`: drop the first `n` code points. -/
def py_slice_from (s : String) (n : Nat) : String := String.mk (s.data.drop n)

/-- Python `s.zfill(width)`: left-pad with ASCII zeros to `width`; a leading
sign character stays in front of the inserted zeros (CPython semantics). -/
def py_zfill (s : String) (width : Nat) : String :=
  if s.data.length ≥ width then s
  else
    match s.data with
    | [] => String.mk (List.replicate width '0')
    | c :: cs =>
      if c = '-' ∨ c = '+' then
        String.mk (c :: (List.replicate (width - s.data.length) '0' ++ cs))
      else
        String.mk (List.replicate (width - s.data.length) '0' ++ s.data)

/-- Exceptions the embedded code can raise: `ValueError` from validation,
`OSError` from file writes.  `except Exception` in Python catches both. -/
inductive PyError where
  | valueError (msg : String)
  | osError (msg : String)
deriving DecidableEq

/-- One entry of the chat history: the dict built by `add_to_chat_history`
(src/agent.py lines 80-86), with keys `role`, `content`, `timestamp`. -/
structure ChatMessage where
  role : String
  content : String
  timestamp : String
deriving DecidableEq

-- Sanity checks for the Python string model.
example : py_add "0x" "ab" = "0xab" := by decide
example : py_len "0xab" = 4 := by decide
example : py_startswith "0xab" "0x" = true := by decide
example : py_slice_from "0xab" 2 = "ab" := by decide
example : py_zfill "ab" 5 = "000ab" := by decide
example : py_zfill "-ab" 5 = "-00ab" := by decide

/-- The `ValueError` message for a malformed owner address
(src/agent.py line 124). -/
def invalid_address_message (addr : String) : String :=
  py_add "Invalid owner address format: " (py_add addr ". Must be 42 characters (0x + 40 hex chars).")

/-- Optional prefix insertion (src/agent.py lines 120-121): prepend `0x`
when the address does not already start with it. -/
def with_0x (s : String) : String :=
  if py_startswith s "0x" then s else py_add "0x" s

/-- The owner-address validator inlined in `generate_erc721_yul_contract`
(src/agent.py lines 119-124): insert the `0x` prefix when missing, then
require total length exactly 42; only the length is checked. -/
def normalize_owner_address (owner_address : String) : Except PyError String :=
  let owner_address := with_0x owner_address
  if py_len owner_address ≠ 42 then
    .error (.valueError (invalid_address_message owner_address))
  else
    .ok owner_address

/-- The `summary` sub-dict of the metadata document
(src/agent.py lines 137-142 and, duplicated verbatim, lines 315-320). -/
structure MetadataSummary where
  total_messages : Nat
  user_messages_count : Nat
  ai_responses_count : Nat
  conversation_pairs : Nat
deriving DecidableEq

/-- The metadata document (src/agent.py lines 131-145 and, duplicated
verbatim, lines 309-323). -/
structure Metadata where
  name : String
  description : String
  chat_history : List ChatMessage
  user_messages : List ChatMessage
  ai_responses : List ChatMessage
  summary : MetadataSummary
  mint_timestamp : String
  owner : String
deriving DecidableEq

/-- Build the metadata dict.  The source constructs this dict twice with
identical text (inside `generate_erc721_yul_contract`, lines 127-145, and
inside `pulse_button`, lines 304-323); both constructions are this function.
`description` is `user_request or "Minted chat history with agent"`
(Python falsiness of the empty string). -/
def mk_metadata (chat_history : List ChatMessage) (user_request owner_address mint_timestamp : String) : Metadata :=
  let user_messages := chat_history.filter (fun m => m.role = "user")
  let ai_responses := chat_history.filter (fun m => m.role = "assistant")
  { name := "Chat History NFT"
    description := if user_request = "" then "Minted chat history with agent" else user_request
    chat_history := chat_history
    user_messages := user_messages
    ai_responses := ai_responses
    summary := { total_messages := chat_history.length
                 user_messages_count := user_messages.length
                 ai_responses_count := ai_responses.length
                 conversation_pairs := min user_messages.length ai_responses.length }
    mint_timestamp := mint_timestamp
    owner := owner_address }

/-- Join strings with a comma separator (helper for the JSON rendering). -/
def json_join : List String → String
  | [] => ""
  | [s] => s
  | s :: ss => py_add s (py_add ", " (json_join ss))

/-- Render one chat message as a JSON object (helper for `json_dumps_metadata`). -/
def json_of_message (m : ChatMessage) : String :=
  py_add "\x7b\"role\": \"" (py_add m.role (py_add "\", \"content\": \"" (py_add m.content
    (py_add "\", \"timestamp\": \"" (py_add m.timestamp "\"\x7d")))))

/-- Render a list of chat messages as a JSON array (helper for `json_dumps_metadata`). -/
def json_of_messages (l : List ChatMessage) : String :=
  py_add "[" (py_add (json_join (l.map json_of_message)) "]")

/-- Models `json.dumps(metadata, indent=2)` (src/agent.py line 147): a concrete
serialization of the metadata document, rendering the fields in insertion
order.  No claim depends on the exact JSON text (string escaping and the
indentation layout are not reproduced); the serialized text only appears as
the trailing comment block of the rendered contract listing. -/
def json_dumps_metadata (m : Metadata) : String :=
  py_add "\x7b\"name\": \"" (py_add m.name
  (py_add "\", \"description\": \"" (py_add m.description
  (py_add "\", \"chat_history\": " (py_add (json_of_messages m.chat_history)
  (py_add ", \"user_messages\": " (py_add (json_of_messages m.user_messages)
  (py_add ", \"ai_responses\": " (py_add (json_of_messages m.ai_responses)
  (py_add ", \"summary\": \x7b\"total_messages\": " (py_add (toString m.summary.total_messages)
  (py_add ", \"user_messages_count\": " (py_add (toString m.summary.user_messages_count)
  (py_add ", \"ai_responses_count\": " (py_add (toString m.summary.ai_responses_count)
  (py_add ", \"conversation_pairs\": " (py_add (toString m.summary.conversation_pairs)
  (py_add "\x7d, \"mint_timestamp\": \"" (py_add m.mint_timestamp
  (py_add "\", \"owner\": \"" (py_add m.owner "\"\x7d")))))))))))))))))))))

/-- Contract template, header up to the owner line (src/agent.py line 155-157). -/
def yul_part1 : String := "// SPDX-License-Identifier: MIT\n// ERC721 Payable Contract in Yul\n// Owner: "

/-- Contract template, between the owner and the generation timestamp
(src/agent.py line 158). -/
def yul_part2 : String := "\n// Generated: "

/-- Contract template, static text from after the timestamp up to the
`sstore` of the owner word (src/agent.py lines 159-175; `\x7b\x7d` denote
the literal braces of the Yul listing). -/
def yul_part3 : String := "\n\nobject \"ERC721ChatHistory\" \x7b
    code \x7b
        // Deploy the contract
        datacopy(0, dataoffset(\"Runtime\"), datasize(\"Runtime\"))
        return(0, datasize(\"Runtime\"))
    \x7d
    
    object \"Runtime\" \x7b
        code \x7b
            // Storage layout:
            // slot 0: owner address
            // slot 1: next token ID
            // slot 2+: token owners (tokenId + 2 => owner)
            
            // Initialize owner
            "

/-- Contract template, static text from after the embedded owner word to the
end, including the lead-in of the trailing metadata comment block
(src/agent.py lines 175-266). -/
def yul_part4 : String := ")
            // Initialize next token ID to 1
            sstore(1, 1)
            
            // Copy runtime code
            datacopy(0, dataoffset(\"RuntimeCode\"), datasize(\"RuntimeCode\"))
            return(0, datasize(\"RuntimeCode\"))
        \x7d
        
        object \"RuntimeCode\" \x7b
            code \x7b
                // Function selectors:
                // mint() = 0x1249c58b
                // tokenURI(uint256) = 0xc87b56dd  
                // owner() = 0x8da5cb5b
                // balanceOf(address) = 0x70a08231
                
                // Fallback: receive ETH
                if iszero(calldatasize()) \x7b
                    stop()
                \x7d
                
                let selector := shr(224, calldataload(0))
                
                // mint() - payable function
                switch selector
                case 0x1249c58b \x7b
                    // mint() - requires payment
                    let payment := callvalue()
                    if iszero(payment) \x7b
                        revert(0, 0)
                    \x7d
                    
                    // Get next token ID
                    let tokenId := sload(1)
                    
                    // Increment token ID
                    sstore(1, add(tokenId, 1))
                    
                    // Store token owner (tokenId + 2 to avoid slot 0 and 1)
                    sstore(add(2, tokenId), caller())
                    
                    // Emit Transfer event (simplified)
                    // Return token ID
                    mstore(0, tokenId)
                    return(0, 32)
                \x7d
                
                // tokenURI(uint256 tokenId) - returns metadata JSON
                case 0xc87b56dd \x7b
                    let tokenId := calldataload(4)
                    
                    // Check if token exists
                    let owner := sload(add(2, tokenId))
                    if iszero(owner) \x7b
                        revert(0, 0)
                    \x7d
                    
                    // Return metadata URI (in production, this would point to IPFS or return JSON)
                    // For now, return a placeholder
                    mstore(0, 0x20)
                    mstore(0x20, 0x20)
                    mstore(0x40, \"data:application/json;base64,\")
                    return(0, 0x60)
                \x7d
                
                // owner() - returns owner address
                case 0x8da5cb5b \x7b
                    let owner := sload(0)
                    mstore(0, owner)
                    return(0, 32)
                \x7d
                
                // balanceOf(address) - returns token count for address
                case 0x70a08231 \x7b
                    let addr := calldataload(4)
                    // Simplified: return 0 (full implementation would count tokens)
                    mstore(0, 0)
                    return(0, 32)
                \x7d
                
                // Default: revert
                default \x7b
                    revert(0, 0)
                \x7d
            \x7d
        \x7d
    \x7d
\x7d

// Metadata JSON (stored separately):
"

/-- The rendered contract listing (src/agent.py lines 155-266): the fixed
template with the owner address, generation timestamp, owner storage word and
serialized metadata substituted in.  The embedded owner storage word is the
argument of the `sstore(0, _)` call between `yul_part3` and `yul_part4`. -/
def yul_contract_text (owner_address iso_now owner_hex metadata_json : String) : String :=
  py_add yul_part1 (py_add owner_address (py_add yul_part2 (py_add iso_now
    (py_add yul_part3 (py_add "sstore(0, " (py_add owner_hex (py_add yul_part4 metadata_json)))))))

/-- The `ValueError` message for a missing owner address (src/agent.py line 117). -/
def owner_not_set_error : String :=
  "Owner address not set. Please set it in core.json or ERC721_OWNER_ADDRESS environment variable."

/-- Embedding of `generate_erc721_yul_contract` (src/agent.py lines 100-268).
`config_owner` stands for the value `get_owner_address()` would return
(environment variable or core.json); `iso_now` stands for the instant
`datetime.now().isoformat()` returns (all calls during one emission are
modelled as returning the same instant).  Raised `ValueError`s become
`Except.error (.valueError _)`. -/
def generate_erc721_yul_contract (chat_history : List ChatMessage)
    (user_request owner_address config_owner iso_now : String) : Except PyError String :=
  let owner_address := if owner_address = "" then config_owner else owner_address
  if owner_address = "" then
    .error (.valueError owner_not_set_error)
  else
    match normalize_owner_address owner_address with
    | .error e => .error e
    | .ok owner_address =>
      let metadata := mk_metadata chat_history user_request owner_address iso_now
      let metadata_json := json_dumps_metadata metadata
      let owner_address_clean :=
        if py_startswith owner_address "0x" then py_slice_from owner_address 2 else owner_address
      let owner_hex := py_add "0x" (py_zfill owner_address_clean 64)
      .ok (yul_contract_text owner_address iso_now owner_hex metadata_json)

/-- Content of a file written by `pulse_button`: the contract file holds the
rendered listing text (line 302), the metadata file holds the metadata
document written by `json.dump` (line 326). -/
inductive FileContent where
  | text (s : String)
  | jsonDoc (m : Metadata)
deriving DecidableEq

/-- The user-facing warning for an empty chat history (src/agent.py line 287). -/
def no_history_warning : String :=
  "⚠️ No chat history found. Please chat with the agent first before pressing the pulse button."

/-- The user-facing warning for a missing owner address (src/agent.py line 294). -/
def owner_not_set_warning : String :=
  "⚠️ Owner address not set. Please set it in core.json or ERC721_OWNER_ADDRESS environment variable before generating contracts."

/-- Contract file name (src/agent.py line 300); `ts` stands for
`datetime.now().strftime('%Y%m%d_%H%M%S')`. -/
def contract_filename (ts : String) : String :=
  py_add "ERC721_ChatHistory_" (py_add ts ".yul")

/-- Metadata file name (src/agent.py line 324). -/
def metadata_filename (ts : String) : String :=
  py_add "metadata_" (py_add ts ".json")

/-- The success report of `pulse_button` (src/agent.py lines 332-347). -/
def pulse_success_message (contract_file metadata_file owner_address : String)
    (total user_count ai_count : Nat) : String :=
  py_add "✅ Pulse button activated! ERC721 contract generated successfully.\n\n📄 Contract saved to: "
  (py_add contract_file
  (py_add "\n📋 Metadata saved to: "
  (py_add metadata_file
  (py_add "\n\n🔐 Owner address: "
  (py_add owner_address
  (py_add "\n💬 Chat messages in metadata: "
  (py_add (toString total)
  (py_add "\n   - User messages: "
  (py_add (toString user_count)
  (py_add "\n   - AI responses: "
  (py_add (toString ai_count)
  "\n📝 Contract includes:\n   - Payable mint() function\n   - tokenURI() function returning chat history metadata\n   - owner() function\n   - Complete chat history with user messages and AI responses stored as JSON metadata\n\nYou can now deploy this contract and mint your chat history as an NFT!")))))))))))

/-- The body of the `try` block of `pulse_button` (src/agent.py lines 283-347).
Returns the files written so far (file writes are side effects that persist
when a later exception is raised) together with either the returned string or
the raised exception.

Modelling of the external world: `chat_history` is the value
`get_chat_history()` returns, `config_owner` the value `get_owner_address()`
returns, `ts`/`iso_now` the two `datetime.now()` renderings (all calls during
one emission modelled as the same instant), and `write_error f = some m`
means the write to file `f` raises `OSError(m)` (`none`: the write succeeds). -/
def pulse_button_try (user_request owner_address : String)
    (chat_history : List ChatMessage) (config_owner ts iso_now : String)
    (write_error : String → Option String) :
    List (String × FileContent) × Except PyError String :=
  if chat_history = [] then
    ([], .ok no_history_warning)
  else
    let owner_address := if owner_address = "" then config_owner else owner_address
    if owner_address = "" then
      ([], .ok owner_not_set_warning)
    else
      match generate_erc721_yul_contract chat_history user_request owner_address config_owner iso_now with
      | .error e => ([], .error e)
      | .ok contract =>
        match write_error (contract_filename ts) with
        | some m => ([], .error (.osError m))
        | none =>
          let metadata := mk_metadata chat_history user_request owner_address iso_now
          match write_error (metadata_filename ts) with
          | some m => ([(contract_filename ts, .text contract)], .error (.osError m))
          | none =>
            let user_messages := chat_history.filter (fun m => m.role = "user")
            let ai_responses := chat_history.filter (fun m => m.role = "assistant")
            ([(contract_filename ts, .text contract),
              (metadata_filename ts, .jsonDoc metadata)],
             .ok (pulse_success_message (contract_filename ts) (metadata_filename ts)
                    owner_address chat_history.length user_messages.length ai_responses.length))

/-- Embedding of `pulse_button` (src/agent.py lines 271-352): the `try` body
with the two `except` clauses applied — `except ValueError` renders a
configuration-error line, `except Exception` (here: `OSError` from a file
write) renders a generic error line.  Returns the user-facing message and the
list of files written. -/
def pulse_button (user_request owner_address : String)
    (chat_history : List ChatMessage) (config_owner ts iso_now : String)
    (write_error : String → Option String) :
    String × List (String × FileContent) :=
  let r := pulse_button_try user_request owner_address chat_history config_owner ts iso_now write_error
  match r.2 with
  | .ok s => (s, r.1)
  | .error (.valueError m) => (py_add "❌ Configuration error: " m, r.1)
  | .error (.osError m) => (py_add "❌ Error generating contract: " m, r.1)

/-- The module-level heartbeat state of src/mashcook_agent.py
(lines 40-41): `_last_pulse_time` (None at process start) and
`_pulse_failures`.  Timestamps are modelled as rationals (seconds). -/
structure HeartbeatState where
  last_pulse_time : Option ℚ
  pulse_failures : Nat
deriving DecidableEq

/-- Classification of the string `spice_sync_pulse` returns, by the branch
taken (src/mashcook_agent.py lines 53-69): the initialization message, the
on-time message (with the cycle length it reports), the delay message (with
the elapsed time and failure count it reports), or the critical message
(with the failure count it reports). -/
inductive PulseStatus where
  | initialized
  | onTime (cycle : ℚ)
  | late (elapsed : ℚ) (failures : Nat)
  | critical (failures : Nat)
deriving DecidableEq

/-- Embedding of `spice_sync_pulse` (src/mashcook_agent.py lines 44-69):
given the value of `time.time()` and the current module state, return the
classified message and the updated state.  The tolerance window is 10.0
seconds (line 60). -/
def spice_sync_pulse (current_time : ℚ) (s : HeartbeatState) : PulseStatus × HeartbeatState :=
  match s.last_pulse_time with
  | none => (.initialized, ⟨some current_time, 0⟩)
  | some last =>
    let time_since_last_pulse := current_time - last
    if time_since_last_pulse ≤ 10 then
      (.onTime time_since_last_pulse, ⟨some current_time, 0⟩)
    else
      let failures := s.pulse_failures + 1
      if failures ≥ 3 then
        (.critical failures, ⟨s.last_pulse_time, failures⟩)
      else
        (.late time_since_last_pulse failures, ⟨s.last_pulse_time, failures⟩)

/-- Heap model of the module state of src/agent.py around `_chat_history`
(line 32): the history list holds references to message dicts, which live in
an addressable store.  This models Python reference semantics, which decides
whether `list.copy()` (line 91) is a defensive copy. -/
structure AgentModuleState where
  heap : List ChatMessage
  chat_history_refs : List Nat
deriving DecidableEq

/-- Embedding of `add_to_chat_history` (src/agent.py lines 80-86): allocate a
fresh message dict and append a reference to it to `_chat_history`. -/
def add_to_chat_history (role content timestamp : String) (s : AgentModuleState) : AgentModuleState :=
  { heap := s.heap ++ [⟨role, content, timestamp⟩]
    chat_history_refs := s.chat_history_refs ++ [s.heap.length] }

/-- Embedding of `get_chat_history` (src/agent.py lines 89-91):
`_chat_history.copy()` builds a new list holding the same references — the
list structure is copied, the message dicts are not. -/
def get_chat_history (s : AgentModuleState) : List Nat :=
  s.chat_history_refs

/-- A caller-side in-place mutation of a message dict reached through a
reference: `entry["content"] = c` in Python.  Only the heap cell changes;
out-of-range references change nothing. -/
def set_entry_content (s : AgentModuleState) (ref : Nat) (c : String) : AgentModuleState :=
  { s with heap :=
      match s.heap.get? ref with
      | some e => s.heap.set ref { e with content := c }
      | none => s.heap }

/-- The chat log as the caller observes it: the sequence of message dicts the
references of `_chat_history` point to. -/
def log_view (s : AgentModuleState) : List ChatMessage :=
  s.chat_history_refs.map (fun r => s.heap.getD r ⟨"", "", ""⟩)

instance : DecidableEq (Except PyError String) := fun x y =>
  match x, y with
  | .ok a, .ok b =>
    if h : a = b then .isTrue (by rw [h]) else .isFalse (fun he => h (Except.ok.inj he))
  | .error a, .error b =>
    if h : a = b then .isTrue (by rw [h]) else .isFalse (fun he => h (Except.error.inj he))
  | .ok _, .error _ => .isFalse (fun he => Except.noConfusion he)
  | .error _, .ok _ => .isFalse (fun he => Except.noConfusion he)

theorem data_py_add (a b : String) : (py_add a b).data = a.data ++ b.data := rfl

theorem py_add_assoc (a b c : String) : py_add (py_add a b) c = py_add a (py_add b c) := by
  simp [py_add, List.append_assoc]

theorem py_startswith_py_add_0x (s : String) : py_startswith (py_add "0x" s) "0x" = true := by
  show List.isPrefixOf ('0' :: 'x' :: []) ('0' :: 'x' :: s.data) = true
  simp [List.isPrefixOf]

theorem with_0x_startswith (s : String) : py_startswith (with_0x s) "0x" = true := by
  unfold with_0x
  by_cases h : py_startswith s "0x"
  · simp [h]
  · simp [h, py_startswith_py_add_0x]

theorem with_0x_of_startswith (v : String) (h : py_startswith v "0x" = true) : with_0x v = v := by
  simp [with_0x, h]

theorem normalize_ok (s : String) (h : py_len (with_0x s) = 42) :
    normalize_owner_address s = .ok (with_0x s) := by
  unfold normalize_owner_address
  simp [h]

/-- Claim C2: calling `pulse_button` on an empty chat history returns the
user-facing empty-conversation warning and writes no file. -/
theorem pulse_button_empty_history (ur ow cfg ts iso : String) (we : String → Option String) :
    pulse_button ur ow [] cfg ts iso we = (no_history_warning, []) := rfl

/-- Claim C3: the owner-identifier validator fails if and only if, after the
optional `0x` prefix insertion, the total length is not exactly 42
characters; in particular a 42-character identifier whose payload is entirely
non-hexadecimal is not rejected. -/
theorem owner_validation_length_only (s : String) :
    ((∃ m, normalize_owner_address s = .error m) ↔ py_len (with_0x s) ≠ 42) ∧
    normalize_owner_address "0xZZZZZZZZZZZZZZZZZZZZZZZZZZZZZZZZZZZZZZZZ"
      = .ok "0xZZZZZZZZZZZZZZZZZZZZZZZZZZZZZZZZZZZZZZZZ" := by
  refine ⟨⟨?_, ?_⟩, by decide⟩
  · rintro ⟨m, hm⟩
    intro hlen
    rw [normalize_ok s hlen] at hm
    cases hm
  · intro hlen
    refine ⟨.valueError (invalid_address_message (with_0x s)), ?_⟩
    unfold normalize_owner_address
    simp [hlen]

/-- Claim C8: owner-identifier normalization is idempotent — whenever
normalization succeeds, normalizing the result succeeds and returns it
unchanged. -/
theorem normalize_owner_address_idempotent (raw v : String)
    (h : normalize_owner_address raw = .ok v) :
    normalize_owner_address v = .ok v := by
  unfold normalize_owner_address at h
  by_cases hlen : py_len (with_0x raw) = 42
  · simp [hlen] at h
    subst h
    rw [normalize_ok (with_0x raw) (by rw [with_0x_of_startswith _ (with_0x_startswith raw)]; exact hlen)]
    rw [with_0x_of_startswith _ (with_0x_startswith raw)]
  · simp [hlen] at h

/-- Witness for C8 at a concrete identifier: an unprefixed valid address
normalizes to its prefixed form, and normalizing that again is the identity. -/
theorem normalize_owner_address_idempotent_witness :
    normalize_owner_address "43Ef2Cd47716f7f833B2f90875C594530133e0eB"
      = .ok "0x43Ef2Cd47716f7f833B2f90875C594530133e0eB" ∧
    normalize_owner_address "0x43Ef2Cd47716f7f833B2f90875C594530133e0eB"
      = .ok "0x43Ef2Cd47716f7f833B2f90875C594530133e0eB" :=
  ⟨by decide, normalize_owner_address_idempotent "43Ef2Cd47716f7f833B2f90875C594530133e0eB"
    "0x43Ef2Cd47716f7f833B2f90875C594530133e0eB" (by decide)⟩

theorem generate_ok (ch : List ChatMessage) (ur owner cfg iso : String)
    (how : owner ≠ "") (hlen : py_len (with_0x owner) = 42) :
    generate_erc721_yul_contract ch ur owner cfg iso =
      .ok (yul_contract_text (with_0x owner) iso
        (py_add "0x" (py_zfill (py_slice_from (with_0x owner) 2) 64))
        (json_dumps_metadata (mk_metadata ch ur (with_0x owner) iso))) := by
  unfold generate_erc721_yul_contract
  rw [if_neg how]
  simp only [if_neg how, normalize_ok owner hlen, with_0x_startswith, if_true]

theorem generate_invalid (ch : List ChatMessage) (ur owner cfg iso : String)
    (how : owner ≠ "") (hlen : py_len (with_0x owner) ≠ 42) :
    generate_erc721_yul_contract ch ur owner cfg iso =
      .error (.valueError (invalid_address_message (with_0x owner))) := by
  unfold generate_erc721_yul_contract normalize_owner_address
  simp [how, hlen]

/-- Claim C1: for a non-empty chat history and a validly formatted owner
identifier (length 42 after optional `0x` insertion), with both file writes
succeeding, the emission succeeds — `generate_erc721_yul_contract` returns a
listing, `pulse_button` returns the success report and writes the contract
file and the metadata file — and the `conversation_pairs` field of the
produced metadata document equals the minimum of the user-message and
assistant-message counts. -/
theorem pulse_button_success_pairs (ur owner cfg ts iso : String)
    (ch : List ChatMessage) (we : String → Option String)
    (hch : ch ≠ []) (how : owner ≠ "") (hlen : py_len (with_0x owner) = 42)
    (hw1 : we (contract_filename ts) = none) (hw2 : we (metadata_filename ts) = none) :
    ∃ c, generate_erc721_yul_contract ch ur owner cfg iso = .ok c ∧
      pulse_button ur owner ch cfg ts iso we =
        (pulse_success_message (contract_filename ts) (metadata_filename ts) owner
           ch.length (ch.filter (fun m => m.role = "user")).length
           (ch.filter (fun m => m.role = "assistant")).length,
         [(contract_filename ts, .text c),
          (metadata_filename ts, .jsonDoc (mk_metadata ch ur owner iso))]) ∧
      (mk_metadata ch ur owner iso).summary.conversation_pairs =
        min (ch.filter (fun m => m.role = "user")).length
            (ch.filter (fun m => m.role = "assistant")).length := by
  refine ⟨_, generate_ok ch ur owner cfg iso how hlen, ?_, rfl⟩
  unfold pulse_button pulse_button_try
  simp only [if_neg hch, if_neg how]
  rw [generate_ok ch ur owner cfg iso how hlen]
  simp [hw1, hw2]

/-- Witness for C1 at the spec's concrete scenario: two messages, the
40-character owner, all writes succeeding. -/
theorem pulse_button_success_pairs_witness :
    py_len (with_0x "43Ef2Cd47716f7f833B2f90875C594530133e0eB") = 42 ∧
    (∃ c, generate_erc721_yul_contract
        [⟨"user", "Hi", "t1"⟩, ⟨"assistant", "Hello", "t2"⟩] ""
        "43Ef2Cd47716f7f833B2f90875C594530133e0eB" "" "2024-01-01T00:00:00" = .ok c) ∧
    (mk_metadata [⟨"user", "Hi", "t1"⟩, ⟨"assistant", "Hello", "t2"⟩] ""
        "43Ef2Cd47716f7f833B2f90875C594530133e0eB"
        "2024-01-01T00:00:00").summary.conversation_pairs = 1 := by
  obtain ⟨c, hA, hB, hC⟩ := pulse_button_success_pairs ""
    "43Ef2Cd47716f7f833B2f90875C594530133e0eB" "" "20240101_000000" "2024-01-01T00:00:00"
    [⟨"user", "Hi", "t1"⟩, ⟨"assistant", "Hello", "t2"⟩] (fun _ => none)
    (by decide) (by decide) (by decide) rfl rfl
  exact ⟨by decide, ⟨c, hA⟩, by rw [hC]; decide⟩

/-- Claim C6: with an empty raw owner identifier and no configuration
fallback, `pulse_button` returns the owner-not-configured warning and writes
no file; a present-but-malformed identifier instead produces the
configuration-error line carrying the invalid-format message, and the two
user-facing messages are distinct, so callers can tell "not configured" from
"malformed". -/
theorem pulse_button_owner_not_configured (ur ts iso : String) (ch : List ChatMessage)
    (we : String → Option String) (bad : String)
    (hch : ch ≠ []) (hbad1 : bad ≠ "") (hbad2 : py_len (with_0x bad) ≠ 42) :
    pulse_button ur "" ch "" ts iso we = (owner_not_set_warning, []) ∧
    pulse_button ur bad ch "" ts iso we =
      (py_add "❌ Configuration error: " (invalid_address_message (with_0x bad)), []) ∧
    owner_not_set_warning ≠ py_add "❌ Configuration error: " (invalid_address_message (with_0x bad)) := by
  refine ⟨?_, ?_, ?_⟩
  · unfold pulse_button pulse_button_try
    simp [hch]
  · unfold pulse_button pulse_button_try
    simp only [if_neg hch, if_neg hbad1]
    rw [generate_invalid ch ur bad "" iso hbad1 hbad2]
  · intro h
    have h2 : owner_not_set_warning.data.head? =
        (py_add "❌ Configuration error: " (invalid_address_message (with_0x bad))).data.head? :=
      congrArg (fun s => s.data.head?) h
    have h3 : some '⚠' = some '❌' := h2
    exact absurd h3 (by decide)

/-- Witness for C6 at a concrete input: one message in the history and a
three-character malformed identifier. -/
theorem pulse_button_owner_not_configured_witness :
    pulse_button "" "" [⟨"user", "Hi", "t1"⟩] "" "20240101_000000" "2024-01-01T00:00:00"
      (fun _ => none) = (owner_not_set_warning, []) ∧
    pulse_button "" "xyz" [⟨"user", "Hi", "t1"⟩] "" "20240101_000000" "2024-01-01T00:00:00"
      (fun _ => none) =
      (py_add "❌ Configuration error: " (invalid_address_message (with_0x "xyz")), []) ∧
    owner_not_set_warning ≠ py_add "❌ Configuration error: " (invalid_address_message (with_0x "xyz")) :=
  pulse_button_owner_not_configured "" "20240101_000000" "2024-01-01T00:00:00"
    [⟨"user", "Hi", "t1"⟩] (fun _ => none) "xyz" (by decide) (by decide) (by decide)

/-- Claim C10: the emission entry point is total at its public interface —
for every chat history, owner string, description, configuration value and
file-system behavior, `pulse_button` returns one of its user-facing message
categories (empty-history warning, owner-not-set warning, configuration-error
line, generic error line, or the success report); every internal failure,
including validation errors and file-write errors, is converted to a message
string rather than propagated. -/
theorem pulse_button_total (ur owner cfg ts iso : String) (ch : List ChatMessage)
    (we : String → Option String) :
    (pulse_button ur owner ch cfg ts iso we).1 = no_history_warning ∨
    (pulse_button ur owner ch cfg ts iso we).1 = owner_not_set_warning ∨
    (∃ m, (pulse_button ur owner ch cfg ts iso we).1 = py_add "❌ Configuration error: " m) ∨
    (∃ m, (pulse_button ur owner ch cfg ts iso we).1 = py_add "❌ Error generating contract: " m) ∨
    (∃ cf mf ow t u a, (pulse_button ur owner ch cfg ts iso we).1 =
       pulse_success_message cf mf ow t u a) := by
  by_cases hch : ch = []
  · left
    rw [hch]
    rfl
  · by_cases how : (if owner = "" then cfg else owner) = ""
    · right; left
      unfold pulse_button pulse_button_try
      simp [hch, how]
    · cases hg : generate_erc721_yul_contract ch ur (if owner = "" then cfg else owner) cfg iso with
      | error e =>
        cases e with
        | valueError m =>
          right; right; left
          exact ⟨m, by unfold pulse_button pulse_button_try; simp [hch, how, hg]⟩
        | osError m =>
          right; right; right; left
          exact ⟨m, by unfold pulse_button pulse_button_try; simp [hch, how, hg]⟩
      | ok c =>
        cases hw1 : we (contract_filename ts) with
        | some m =>
          right; right; right; left
          exact ⟨m, by unfold pulse_button pulse_button_try; simp [hch, how, hg, hw1]⟩
        | none =>
          cases hw2 : we (metadata_filename ts) with
          | some m =>
            right; right; right; left
            exact ⟨m, by unfold pulse_button pulse_button_try; simp [hch, how, hg, hw1, hw2]⟩
          | none =>
            right; right; right; right
            exact ⟨contract_filename ts, metadata_filename ts,
              (if owner = "" then cfg else owner), ch.length,
              (ch.filter (fun m => m.role = "user")).length,
              (ch.filter (fun m => m.role = "assistant")).length,
              by unfold pulse_button pulse_button_try; simp [hch, how, hg, hw1, hw2]⟩

theorem spice_sync_pulse_some (now last : ℚ) (f : Nat) :
    spice_sync_pulse now ⟨some last, f⟩ =
      if now - last ≤ 10 then (.onTime (now - last), ⟨some now, 0⟩)
      else if f + 1 ≥ 3 then (.critical (f + 1), ⟨some last, f + 1⟩)
      else (.late (now - last) (f + 1), ⟨some last, f + 1⟩) := rfl

/-- Claim C4: for the heartbeat monitor, the first call from the initial
state returns the Initialized status; a call whose elapsed time since the
last recorded signal is within the 10-second tolerance window returns OnTime
and resets the consecutive-late counter to 0; and three consecutive calls
each exceeding the tolerance window return Late, Late, Critical in that
order, with the counter strictly increasing (1, 2, 3) until Critical. -/
theorem spice_sync_pulse_scenarios (t now last t0 t1 t2 t3 : ℚ) (f : Nat)
    (hOn : now - last ≤ 10) (h1 : t1 - t0 > 10) (h2 : t2 - t0 > 10) (h3 : t3 - t0 > 10) :
    (spice_sync_pulse t ⟨none, 0⟩).1 = .initialized ∧
    spice_sync_pulse now ⟨some last, f⟩ = (.onTime (now - last), ⟨some now, 0⟩) ∧
    spice_sync_pulse t1 ⟨some t0, 0⟩ = (.late (t1 - t0) 1, ⟨some t0, 1⟩) ∧
    spice_sync_pulse t2 (spice_sync_pulse t1 ⟨some t0, 0⟩).2 = (.late (t2 - t0) 2, ⟨some t0, 2⟩) ∧
    spice_sync_pulse t3 (spice_sync_pulse t2 (spice_sync_pulse t1 ⟨some t0, 0⟩).2).2
      = (.critical 3, ⟨some t0, 3⟩) := by
  have e1 : spice_sync_pulse t1 ⟨some t0, 0⟩ = (.late (t1 - t0) 1, ⟨some t0, 1⟩) := by
    rw [spice_sync_pulse_some, if_neg (not_le.mpr h1)]
    norm_num
  have e2 : spice_sync_pulse t2 (⟨some t0, 1⟩ : HeartbeatState) = (.late (t2 - t0) 2, ⟨some t0, 2⟩) := by
    rw [spice_sync_pulse_some, if_neg (not_le.mpr h2)]
    norm_num
  have e3 : spice_sync_pulse t3 (⟨some t0, 2⟩ : HeartbeatState) = (.critical 3, ⟨some t0, 3⟩) := by
    rw [spice_sync_pulse_some, if_neg (not_le.mpr h3)]
    norm_num
  refine ⟨rfl, ?_, e1, ?_, ?_⟩
  · rw [spice_sync_pulse_some, if_pos hOn]
  · rw [e1]
    exact e2
  · rw [e1]
    show spice_sync_pulse t3 (spice_sync_pulse t2 (⟨some t0, 1⟩ : HeartbeatState)).2 = _
    rw [e2]
    exact e3

/-- Witness for C4 with concrete times: tolerance met at elapsed 5, then
three calls at 11, 22, 33 seconds against an anchor of 0. -/
theorem spice_sync_pulse_scenarios_witness :
    ((5 : ℚ) - 0 ≤ 10) ∧ ((11 : ℚ) - 0 > 10) ∧ ((22 : ℚ) - 0 > 10) ∧ ((33 : ℚ) - 0 > 10) ∧
    ((spice_sync_pulse 7 ⟨none, 0⟩).1 = .initialized ∧
     spice_sync_pulse 5 ⟨some 0, 4⟩ = (.onTime (5 - 0), ⟨some 5, 0⟩) ∧
     spice_sync_pulse 11 ⟨some 0, 0⟩ = (.late (11 - 0) 1, ⟨some 0, 1⟩) ∧
     spice_sync_pulse 22 (spice_sync_pulse 11 ⟨some 0, 0⟩).2 = (.late (22 - 0) 2, ⟨some 0, 2⟩) ∧
     spice_sync_pulse 33 (spice_sync_pulse 22 (spice_sync_pulse 11 ⟨some 0, 0⟩).2).2
       = (.critical 3, ⟨some 0, 3⟩)) :=
  ⟨by norm_num, by norm_num, by norm_num, by norm_num,
   spice_sync_pulse_scenarios 7 5 0 0 11 22 33 4 (by norm_num) (by norm_num) (by norm_num) (by norm_num)⟩

/-- Claim C5: the recorded last-signal time is updated only on the
Initialized and OnTime paths; a Late or Critical signal leaves the anchor
unchanged, and the elapsed time a Late status reports is measured from the
recorded anchor (the last good signal), not from the previous call. -/
theorem spice_sync_pulse_anchor_update (now : ℚ) (s : HeartbeatState) :
    ((spice_sync_pulse now s).1 = .initialized ∨ (∃ e, (spice_sync_pulse now s).1 = .onTime e) →
      (spice_sync_pulse now s).2.last_pulse_time = some now) ∧
    ((∃ e n, (spice_sync_pulse now s).1 = .late e n) ∨ (∃ n, (spice_sync_pulse now s).1 = .critical n) →
      (spice_sync_pulse now s).2.last_pulse_time = s.last_pulse_time) ∧
    (∀ last e n, s.last_pulse_time = some last → (spice_sync_pulse now s).1 = .late e n →
      e = now - last) := by
  obtain ⟨lpt, fl⟩ := s
  cases lpt with
  | none =>
    refine ⟨fun _ => rfl, ?_, ?_⟩
    · rintro (⟨e, n, h⟩ | ⟨n, h⟩) <;> exact PulseStatus.noConfusion h
    · intro last e n hl _
      exact Option.noConfusion hl
  | some last0 =>
    by_cases hle : now - last0 ≤ 10
    · have e0 : spice_sync_pulse now ⟨some last0, fl⟩ = (.onTime (now - last0), ⟨some now, 0⟩) := by
        rw [spice_sync_pulse_some, if_pos hle]
      rw [e0]
      refine ⟨fun _ => rfl, ?_, ?_⟩
      · rintro (⟨e, n, h⟩ | ⟨n, h⟩) <;> exact PulseStatus.noConfusion h
      · intro last e n _ h
        exact PulseStatus.noConfusion h
    · by_cases hcrit : fl + 1 ≥ 3
      · have e0 : spice_sync_pulse now ⟨some last0, fl⟩ = (.critical (fl + 1), ⟨some last0, fl + 1⟩) := by
          rw [spice_sync_pulse_some, if_neg hle, if_pos hcrit]
        rw [e0]
        refine ⟨?_, fun _ => rfl, ?_⟩
        · rintro (h | ⟨e, h⟩) <;> exact PulseStatus.noConfusion h
        · intro last e n _ h
          exact PulseStatus.noConfusion h
      · have e0 : spice_sync_pulse now ⟨some last0, fl⟩
            = (.late (now - last0) (fl + 1), ⟨some last0, fl + 1⟩) := by
          rw [spice_sync_pulse_some, if_neg hle, if_neg hcrit]
        rw [e0]
        refine ⟨?_, fun _ => rfl, ?_⟩
        · rintro (h | ⟨e, h⟩) <;> exact PulseStatus.noConfusion h
        · intro last e n hl h
          obtain rfl : last0 = last := Option.some.inj hl
          injection h with he _
          exact he.symm

/-- Witness for C5 at a concrete late signal: elapsed 20 from anchor 0, the
status is Late and the anchor is left unchanged. -/
theorem spice_sync_pulse_anchor_update_witness :
    ((∃ e n, (spice_sync_pulse 20 ⟨some 0, 0⟩).1 = PulseStatus.late e n) ∨
       (∃ n, (spice_sync_pulse 20 ⟨some 0, 0⟩).1 = PulseStatus.critical n)) ∧
    (spice_sync_pulse 20 ⟨some 0, 0⟩).2.last_pulse_time
      = (⟨some 0, 0⟩ : HeartbeatState).last_pulse_time :=
  ⟨Or.inl ⟨20 - 0, 1, by norm_num [spice_sync_pulse]⟩,
   (spice_sync_pulse_anchor_update 20 ⟨some 0, 0⟩).2.1
     (Or.inl ⟨20 - 0, 1, by norm_num [spice_sync_pulse]⟩)⟩

/-- Module state after one `add_to_chat_history "user" "Hi"` call on the
initial empty state. -/
def c7_state : AgentModuleState := add_to_chat_history "user" "Hi" "t" ⟨[], []⟩

/-- Counterexample to claim C7 as stated: `get_chat_history` is only a
shallow copy, so mutating an entry reached through a reference contained in
the returned snapshot (here reference 0, which the snapshot contains) does
change the underlying log. -/
theorem get_chat_history_not_defensive :
    0 ∈ get_chat_history c7_state ∧
    log_view (set_entry_content c7_state 0 "HACKED") ≠ log_view c7_state := by decide

/-- Claim C7 (amended): `get_chat_history` returns a shallow copy of the
log — the snapshot holds the log's entry references themselves, and a
mutation performed through a snapshot reference never alters the log's own
reference list, but the entries are shared, so the mutated content is
visible at the corresponding position of the log. -/
theorem get_chat_history_shallow_copy (s : AgentModuleState) (i : Nat) (c : String)
    (hi : i < (get_chat_history s).length)
    (hr : (get_chat_history s).get ⟨i, hi⟩ < s.heap.length) :
    get_chat_history s = s.chat_history_refs ∧
    (set_entry_content s ((get_chat_history s).get ⟨i, hi⟩) c).chat_history_refs
      = s.chat_history_refs ∧
    (log_view (set_entry_content s ((get_chat_history s).get ⟨i, hi⟩) c))[i]?
      = some { s.heap.get ⟨(get_chat_history s).get ⟨i, hi⟩, hr⟩ with content := c } := by
  refine ⟨rfl, rfl, ?_⟩
  have hsome : s.heap.get? ((get_chat_history s).get ⟨i, hi⟩)
      = some (s.heap.get ⟨(get_chat_history s).get ⟨i, hi⟩, hr⟩) := by
    rw [List.get?_eq_getElem?, List.getElem?_eq_getElem hr]
    simp [List.get_eq_getElem]
  unfold log_view set_entry_content
  rw [hsome]
  rw [List.getElem?_map]
  have hrefs : s.chat_history_refs[i]? = some ((get_chat_history s).get ⟨i, hi⟩) := by
    rw [@List.getElem?_eq_getElem _ s.chat_history_refs i hi]
    rfl
  rw [hrefs]
  have hr2 : (get_chat_history s)[i] < s.heap.length := hr
  simp [List.getD, List.getElem?_set, hr2]

/-- Witness for C7 (amended) at the concrete one-entry state. -/
theorem get_chat_history_shallow_copy_witness :
    0 < (get_chat_history c7_state).length ∧
    get_chat_history c7_state = c7_state.chat_history_refs ∧
    (set_entry_content c7_state
        ((get_chat_history c7_state).get ⟨0, (by decide : 0 < (get_chat_history c7_state).length)⟩)
        "X").chat_history_refs = c7_state.chat_history_refs :=
  ⟨by decide,
   (get_chat_history_shallow_copy c7_state 0 "X" (by decide) (by decide)).1,
   (get_chat_history_shallow_copy c7_state 0 "X" (by decide) (by decide)).2.1⟩

theorem py_zfill_no_sign (s : String) (w : Nat) (hlt : s.data.length < w)
    (h1 : s.data.head? ≠ some '-') (h2 : s.data.head? ≠ some '+') :
    py_zfill s w = String.mk (List.replicate (w - s.data.length) '0' ++ s.data) := by
  unfold py_zfill
  rw [if_neg (by omega)]
  split
  · rename_i heq
    rw [heq]
    simp
  · rename_i c cs heq
    rw [if_neg, heq]
    rintro (rfl | rfl)
    · exact h1 (by rw [heq]; rfl)
    · exact h2 (by rw [heq]; rfl)

/-- Claim C9 (amended): for every validated owner identifier whose
40-character payload does not begin with a sign character (`-` or `+`), the
rendered contract listing embeds the owner as the argument of the
`sstore(0, _)` call, a hexadecimal-style literal whose payload is the
40-character owner payload left-padded with zeros to exactly 64 characters
after the `0x` prefix. -/
theorem owner_hex_padding (ch : List ChatMessage) (ur owner cfg iso : String)
    (how : owner ≠ "") (hlen : py_len (with_0x owner) = 42)
    (h1 : (py_slice_from (with_0x owner) 2).data.head? ≠ some '-')
    (h2 : (py_slice_from (with_0x owner) 2).data.head? ≠ some '+') :
    ∃ pre post,
      generate_erc721_yul_contract ch ur owner cfg iso =
        .ok (py_add pre (py_add "sstore(0, " (py_add
          (py_add "0x" (String.mk (List.replicate 24 '0' ++ (py_slice_from (with_0x owner) 2).data)))
          post))) ∧
      (py_slice_from (with_0x owner) 2).data.length = 40 ∧
      py_len (String.mk (List.replicate 24 '0' ++ (py_slice_from (with_0x owner) 2).data)) = 64 := by
  have hwlen : (with_0x owner).data.length = 42 := hlen
  have hplen : (py_slice_from (with_0x owner) 2).data.length = 40 := by
    simp [py_slice_from, List.length_drop, hwlen]
  have hz : py_zfill (py_slice_from (with_0x owner) 2) 64
      = String.mk (List.replicate 24 '0' ++ (py_slice_from (with_0x owner) 2).data) := by
    rw [py_zfill_no_sign _ 64 (by omega) h1 h2, hplen]
  refine ⟨py_add yul_part1 (py_add (with_0x owner) (py_add yul_part2 (py_add iso yul_part3))),
    py_add yul_part4 (json_dumps_metadata (mk_metadata ch ur (with_0x owner) iso)), ?_, hplen, ?_⟩
  · rw [generate_ok ch ur owner cfg iso how hlen, hz]
    unfold yul_contract_text
    simp [py_add_assoc]
  · simp [py_len, List.length_append, List.length_replicate, hplen]

/-- Witness for C9 (amended) at the concrete 40-character owner of the spec
scenario, whose payload starts with the digit 4. -/
theorem owner_hex_padding_witness :
    py_len (with_0x "43Ef2Cd47716f7f833B2f90875C594530133e0eB") = 42 ∧
    (py_slice_from (with_0x "43Ef2Cd47716f7f833B2f90875C594530133e0eB") 2).data.head? ≠ some '-' ∧
    (py_slice_from (with_0x "43Ef2Cd47716f7f833B2f90875C594530133e0eB") 2).data.head? ≠ some '+' ∧
    ∃ pre post,
      generate_erc721_yul_contract [⟨"user", "Hi", "t1"⟩] ""
          "43Ef2Cd47716f7f833B2f90875C594530133e0eB" "" "2024-01-01T00:00:00" =
        .ok (py_add pre (py_add "sstore(0, " (py_add
          (py_add "0x" (String.mk (List.replicate 24 '0'
            ++ (py_slice_from (with_0x "43Ef2Cd47716f7f833B2f90875C594530133e0eB") 2).data)))
          post))) :=
  ⟨by decide, by decide, by decide, by
    obtain ⟨pre, post, hmain, _, _⟩ := owner_hex_padding [⟨"user", "Hi", "t1"⟩] ""
      "43Ef2Cd47716f7f833B2f90875C594530133e0eB" "" "2024-01-01T00:00:00"
      (by decide) (by decide) (by decide) (by decide)
    exact ⟨pre, post, hmain⟩⟩

/-- The 40-hyphen owner payload: passes the length-only validator but starts
with a character Python `str.zfill` treats as a sign. -/
def hyphen_owner : String := String.mk (List.replicate 40 '-')

/-- Counterexample to claim C9 as stated: the owner `hyphen_owner` is
accepted by the validator, the rendered listing embeds
`0x` followed by `py_zfill hyphen_owner 64` as the owner word, and that
64-character padded payload is NOT the owner payload left-padded with zeros —
`zfill` keeps the leading `-` in front of the inserted zeros. -/
theorem owner_hex_padding_counterexample :
    normalize_owner_address hyphen_owner = .ok (py_add "0x" hyphen_owner) ∧
    (∃ post, generate_erc721_yul_contract [⟨"user", "Hi", "t"⟩] "" hyphen_owner "" "T" =
      .ok (py_add (py_add yul_part1 (py_add (py_add "0x" hyphen_owner) (py_add yul_part2 (py_add "T" yul_part3))))
        (py_add "sstore(0, " (py_add (py_add "0x" (py_zfill hyphen_owner 64)) post)))) ∧
    py_len (py_zfill hyphen_owner 64) = 64 ∧
    py_zfill hyphen_owner 64 ≠ String.mk (List.replicate 24 '0' ++ hyphen_owner.data) := by
  have hw : with_0x hyphen_owner = py_add "0x" hyphen_owner := by decide
  have hsl : py_slice_from (with_0x hyphen_owner) 2 = hyphen_owner := by decide
  refine ⟨by decide, ?_, by decide, by decide⟩
  refine ⟨py_add yul_part4 (json_dumps_metadata (mk_metadata [⟨"user", "Hi", "t"⟩] "" (with_0x hyphen_owner) "T")), ?_⟩
  rw [generate_ok [⟨"user", "Hi", "t"⟩] "" hyphen_owner "" "T" (by decide) (by decide), hsl, hw]
  unfold yul_contract_text
  simp [py_add_assoc]
